import Mathlib

/-!
Verification of the OKD `k8s` module (`plugins/modules/k8s.py`) of the
`community.okd` collection.

The file shallowly embeds the module's own logic — the class `OKDRawModule`
with its `__init__`, `perform_action` and `create_project_request` methods —
as Lean functions.  Everything the module delegates to collaborators
(the base class `KubernetesRawModule.perform_action`, the dynamic client's
`resource.get`, `find_resource`, `resource.create`) is modelled through an
explicit environment `Env` that records what each collaborator call would
return, and an abstract `base` function standing for the inherited
implementation.  A run produces a `RunOutcome`: the module result or the
structured `fail_json` error, the final state of the caller's `definition`
dictionary (the Python code mutates it in place), and the ordered list of
collaborator calls the OKD layer issued.
-/

/-- The `metadata` sub-dictionary of a definition: the module reads
`definition['metadata'].get('name')` and `definition['metadata'].get('namespace')`,
both of which may be absent (`None`). Other metadata entries are carried
opaquely in `labels`. -/
structure Metadata where
  name : Option String
  nspace : Option String
  labels : List (String × String) := []
deriving DecidableEq, Repr

/-- A desired cluster-object definition, as the Python dict the module
receives: `apiVersion`, `kind`, `metadata`, and all remaining entries
(`spec`, `data`, …) carried opaquely in `rest`.  The provisioning path
only ever touches `kind`; everything else is passed through. -/
structure Definition where
  apiVersion : String
  kind : String
  metadata : Metadata
  rest : List (String × String) := []
deriving DecidableEq, Repr

/-- A resolved REST resource descriptor (the `resource` argument of
`perform_action`, produced by the external resolver for a kind/apiVersion). -/
structure Resource where
  kind : String
  apiVersion : String
deriving DecidableEq, Repr

/-- A live object returned by the cluster; `to_dict` renders it as a plain
dictionary, modelled as an association list. -/
structure K8sObject where
  dict : List (String × String)
deriving DecidableEq, Repr

def K8sObject.to_dict (k : K8sObject) : List (String × String) := k.dict

/-- Outcome of `resource.get(name, namespace)` in `perform_action`.
`NotFoundError` and `ForbiddenError` are subclasses of `DynamicApiError`,
but the source catches them first (line 306), so they are distinct
constructors here; the payload of those two is never read by the module,
so it is omitted.  A generic `DynamicApiError` carries `body`, `status`
and `reason`, which the module forwards into `fail_json`. -/
inductive GetResult where
  | found
  | notFoundError
  | forbiddenError
  | dynamicApiError (body : String) (status : Nat) (reason : String)
deriving DecidableEq, Repr

/-- Outcome of `resource.create(definition)` in `create_project_request`. -/
inductive CreateResult where
  | created (obj : K8sObject)
  | dynamicApiError (body : String) (status : Nat) (reason : String)
deriving DecidableEq, Repr

/-- A value placed in a structured `fail_json` error: the Python code puts a
transport status code (an int) in `error` on API failures and a rendered
exception string there on the missing-collection failure. -/
inductive ErrVal where
  | num (n : Nat)
  | str (s : String)
deriving DecidableEq, Repr

/-- A structured `fail_json` error: `msg` always, and whichever of
`error` / `status` / `reason` / `exception` the failing site supplies. -/
structure FatalError where
  msg : String
  error : Option ErrVal := none
  status : Option Nat := none
  reason : Option String := none
  exception : Option String := none
deriving DecidableEq, Repr

/-- The result dictionary a successful run returns: `changed`, `result`
(a plain dict), optionally `method`, optionally `duration` (only ever set
by waiting code, which the OKD layer never runs). -/
structure ModuleResult where
  changed : Bool
  result : List (String × String)
  method : Option String := none
  duration : Option Nat := none
deriving DecidableEq, Repr

/-- Either the module result or a terminating `fail_json`. -/
inductive RunResult where
  | ok (r : ModuleResult)
  | failJson (e : FatalError)
deriving DecidableEq, Repr

/-- A collaborator call issued during a run, in order: a live-object
lookup, a resource resolution, a create submission, or an invocation of
the wait coordinator. -/
inductive ApiCall where
  | get (kind apiVersion : String) (name nspace : Option String)
  | findResource (kind apiVersion : String)
  | create (kind apiVersion : String) (defn : Definition)
  | wait
deriving DecidableEq, Repr

/-- The environment of one run: the module parameters the OKD layer reads
(`state`, `check_mode`; `wait` is listed among the options but never read
by this layer), and the scripted outcome of each collaborator call. -/
structure Env where
  state : Option String
  check_mode : Bool
  wait : Bool
  getResult : GetResult
  findResourceOk : Bool
  createResult : CreateResult
deriving DecidableEq, Repr

/-- Everything observable about one run of the OKD layer: the returned
result or fatal error, the final state of the caller-supplied `definition`
dict (the Python code may mutate it in place), and the collaborator calls
issued. -/
structure RunOutcome where
  outcome : RunResult
  finalDefinition : Definition
  calls : List ApiCall
deriving DecidableEq, Repr

/-- Embedding of `OKDRawModule.create_project_request` (k8s.py lines 314-327):
mutates `definition['kind']` to `ProjectRequest`, resolves the
`ProjectRequest` resource for the definition's `apiVersion` via
`find_resource(..., fail=True)` (inherited collaborator code: on failure it
fails the module), and — unless in check mode — submits the create,
converting a `DynamicApiError` into a structured `fail_json`.  On success
the result is `changed=True, method='create'` with the created object's
dict (empty in check mode); no `duration` is set and no wait is performed. -/
def OKDRawModule.create_project_request (env : Env) (definition : Definition) :
    RunOutcome :=
  let definition := { definition with kind := "ProjectRequest" }
  let findCall := ApiCall.findResource "ProjectRequest" definition.apiVersion
  if env.findResourceOk then
    if env.check_mode then
      { outcome := .ok { changed := true, result := [], method := some "create" },
        finalDefinition := definition,
        calls := [findCall] }
    else
      match env.createResult with
      | .created k8s_obj =>
          { outcome := .ok { changed := true, result := k8s_obj.to_dict,
                             method := some "create" },
            finalDefinition := definition,
            calls := [findCall,
                      ApiCall.create "ProjectRequest" definition.apiVersion definition] }
      | .dynamicApiError body status reason =>
          { outcome := .failJson { msg := "Failed to create object: " ++ body,
                                   error := some (.num status),
                                   status := some status,
                                   reason := some reason },
            finalDefinition := definition,
            calls := [findCall,
                      ApiCall.create "ProjectRequest" definition.apiVersion definition] }
  else
    { outcome := .failJson { msg := "Failed to find resource ProjectRequest" },
      finalDefinition := definition,
      calls := [findCall] }

/-- Embedding of `OKDRawModule.perform_action` (k8s.py lines 298-312).
`base` is the inherited `KubernetesRawModule.perform_action`.  For a
definition whose kind is in the literal list `['Project', 'ProjectRequest']`
and `state != 'absent'`, the layer probes the live object: found falls
through to `base`, `NotFoundError`/`ForbiddenError` enter the provisioning
path, and any other `DynamicApiError` is a structured fatal error.  All
other definitions go straight to `base`. -/
def OKDRawModule.perform_action (base : Resource → Definition → RunOutcome)
    (env : Env) (resource : Resource) (definition : Definition) : RunOutcome :=
  let state := env.state
  let name := definition.metadata.name
  let nspace := definition.metadata.nspace
  if definition.kind ∈ ["Project", "ProjectRequest"] ∧ state ≠ some "absent" then
    let getCall := ApiCall.get resource.kind resource.apiVersion name nspace
    match env.getResult with
    | .found =>
        let b := base resource definition
        { b with calls := getCall :: b.calls }
    | .notFoundError =>
        let r := OKDRawModule.create_project_request env definition
        { r with calls := getCall :: r.calls }
    | .forbiddenError =>
        let r := OKDRawModule.create_project_request env definition
        { r with calls := getCall :: r.calls }
    | .dynamicApiError body status reason =>
        { outcome := .failJson { msg := "Failed to retrieve requested object: " ++ body,
                                 error := some (.num status),
                                 status := some status,
                                 reason := some reason },
          finalDefinition := definition,
          calls := [getCall] }
  else
    base resource definition

/-- Outcome of constructing the module. -/
inductive InitResult where
  | failJson (e : FatalError)
  | superInit
deriving DecidableEq, Repr

/-- Embedding of `OKDRawModule.__init__` (k8s.py lines 288-295): if the
`community.kubernetes` collection failed to import, `fail_json` terminates
construction with a structured error (`msg`, `exception` holding the
formatted traceback, `error` holding the rendered import exception);
otherwise control reaches `super().__init__()` (`superInit`), before which
no reconciliation action or cluster call is made. -/
def OKDRawModule.construct (HAS_KUBERNETES_COLLECTION : Bool)
    (K8S_COLLECTION_ERROR : String) (k8s_collection_import_exception : String) :
    InitResult :=
  if !HAS_KUBERNETES_COLLECTION then
    .failJson { msg := "The community.kubernetes collection must be installed",
                exception := some K8S_COLLECTION_ERROR,
                error := some (.str k8s_collection_import_exception) }
  else
    .superInit

/-! Concrete fixtures used to instantiate the universally quantified
theorems below: a stub base implementation, a Project definition and its
resolved resource, and environments scripting each collaborator outcome. -/

/-- A stub for the inherited `KubernetesRawModule.perform_action`, used as a
concrete instantiation of the abstract `base` parameter. -/
def base0 : Resource → Definition → RunOutcome :=
  fun _ d => { outcome := .ok { changed := false, result := [] },
               finalDefinition := d, calls := [] }

def defnProject : Definition :=
  { apiVersion := "project.openshift.io/v1", kind := "Project",
    metadata := { name := some "testing", nspace := none } }

def defnService : Definition :=
  { apiVersion := "v1", kind := "Service",
    metadata := { name := some "web", nspace := some "testing" } }

def resProject : Resource :=
  { kind := "Project", apiVersion := "project.openshift.io/v1" }

def obj0 : K8sObject :=
  { dict := [("kind", "Project"), ("name", "testing")] }

/-- Lookup raises `NotFoundError`; the `ProjectRequest` create succeeds. -/
def envNotFound : Env :=
  { state := some "present", check_mode := false, wait := false,
    getResult := .notFoundError, findResourceOk := true,
    createResult := .created obj0 }

/-- Lookup raises `ForbiddenError`; the `ProjectRequest` create succeeds. -/
def envForbidden : Env :=
  { envNotFound with getResult := .forbiddenError }

/-- Lookup raises a generic `DynamicApiError` (HTTP 500). -/
def envServerError : Env :=
  { envNotFound with getResult := .dynamicApiError "boom" 500 "InternalError" }

/-- The live object exists. -/
def envFound : Env :=
  { envNotFound with getResult := .found }

/-- state=absent. -/
def envAbsent : Env :=
  { envNotFound with state := some "absent" }

/-- Check mode, lookup raises `NotFoundError`. -/
def envCheck : Env :=
  { envNotFound with check_mode := true }

/-! Helper lemmas characterising each branch of the embedded methods. -/

theorem perform_action_skip (base : Resource → Definition → RunOutcome)
    (env : Env) (res : Resource) (defn : Definition)
    (h : ¬(defn.kind ∈ ["Project", "ProjectRequest"] ∧ env.state ≠ some "absent")) :
    OKDRawModule.perform_action base env res defn = base res defn := by
  simp only [OKDRawModule.perform_action]
  rw [if_neg h]

theorem perform_action_probe_failed (base : Resource → Definition → RunOutcome)
    (env : Env) (res : Resource) (defn : Definition)
    (hkind : defn.kind ∈ ["Project", "ProjectRequest"])
    (hstate : env.state ≠ some "absent")
    (hget : env.getResult = GetResult.notFoundError ∨
            env.getResult = GetResult.forbiddenError) :
    OKDRawModule.perform_action base env res defn =
      { OKDRawModule.create_project_request env defn with
        calls := ApiCall.get res.kind res.apiVersion defn.metadata.name
                   defn.metadata.nspace ::
                 (OKDRawModule.create_project_request env defn).calls } := by
  simp only [OKDRawModule.perform_action]
  rw [if_pos ⟨hkind, hstate⟩]
  rcases hget with h | h <;> rw [h]

theorem create_project_request_finalDefinition (env : Env) (defn : Definition) :
    (OKDRawModule.create_project_request env defn).finalDefinition =
      { defn with kind := "ProjectRequest" } := by
  simp only [OKDRawModule.create_project_request]
  cases hf : env.findResourceOk
  · rfl
  · cases hc : env.check_mode
    · cases hcr : env.createResult <;> rfl
    · rfl

theorem create_project_request_created (env : Env) (defn : Definition)
    (obj : K8sObject)
    (hfind : env.findResourceOk = true) (hcheck : env.check_mode = false)
    (hcreate : env.createResult = CreateResult.created obj) :
    OKDRawModule.create_project_request env defn =
      { outcome := .ok { changed := true, result := obj.to_dict,
                         method := some "create" },
        finalDefinition := { defn with kind := "ProjectRequest" },
        calls := [ApiCall.findResource "ProjectRequest" defn.apiVersion,
                  ApiCall.create "ProjectRequest" defn.apiVersion
                    { defn with kind := "ProjectRequest" }] } := by
  simp only [OKDRawModule.create_project_request]
  rw [hfind, hcheck, hcreate]
  rfl

theorem create_project_request_calls (env : Env) (defn : Definition)
    (hfind : env.findResourceOk = true) (hcheck : env.check_mode = false) :
    (OKDRawModule.create_project_request env defn).calls =
      [ApiCall.findResource "ProjectRequest" defn.apiVersion,
       ApiCall.create "ProjectRequest" defn.apiVersion
         { defn with kind := "ProjectRequest" }] := by
  simp only [OKDRawModule.create_project_request]
  rw [hfind, hcheck]
  cases hcr : env.createResult <;> rfl

theorem create_project_request_check (env : Env) (defn : Definition)
    (hfind : env.findResourceOk = true) (hcheck : env.check_mode = true) :
    OKDRawModule.create_project_request env defn =
      { outcome := .ok { changed := true, result := [], method := some "create" },
        finalDefinition := { defn with kind := "ProjectRequest" },
        calls := [ApiCall.findResource "ProjectRequest" defn.apiVersion] } := by
  simp only [OKDRawModule.create_project_request]
  rw [hfind, hcheck]
  rfl

/-! Claim theorems. -/

/-- C1, counterexample: with state=present, kind=Project, a not-found lookup
and a successful create of the companion `ProjectRequest` kind, the module
returns `changed=true` but labels the result `method='create'` (k8s.py line
326), not `method='provision'` as the claim states. -/
theorem C1_counterexample :
    OKDRawModule.perform_action base0 envNotFound resProject defnProject =
      { outcome := .ok { changed := true, result := obj0.to_dict,
                         method := some "create" },
        finalDefinition := { defnProject with kind := "ProjectRequest" },
        calls := [ApiCall.get "Project" "project.openshift.io/v1" (some "testing") none,
                  ApiCall.findResource "ProjectRequest" "project.openshift.io/v1",
                  ApiCall.create "ProjectRequest" "project.openshift.io/v1"
                    { defnProject with kind := "ProjectRequest" }] } ∧
    (some "create" : Option String) ≠ some "provision" := by decide

/-- C1, amended: for every definition whose kind is in the provisioning set,
with state=present, when the live-object lookup fails with not-found (or
forbidden) and the subsequent create of the companion request kind succeeds,
the returned result has `changed=true` and `method="create"` (the code labels
the provisioning result `create`, not `provision`). -/
theorem C1_provision_result (base : Resource → Definition → RunOutcome)
    (env : Env) (res : Resource) (defn : Definition) (obj : K8sObject)
    (hstate : env.state = some "present")
    (hkind : defn.kind ∈ ["Project", "ProjectRequest"])
    (hget : env.getResult = GetResult.notFoundError ∨
            env.getResult = GetResult.forbiddenError)
    (hfind : env.findResourceOk = true)
    (hcheck : env.check_mode = false)
    (hcreate : env.createResult = CreateResult.created obj) :
    (OKDRawModule.perform_action base env res defn).outcome =
      RunResult.ok { changed := true, result := obj.to_dict,
                     method := some "create" } := by
  have hst : env.state ≠ some "absent" := by rw [hstate]; decide
  rw [perform_action_probe_failed base env res defn hkind hst hget]
  show (OKDRawModule.create_project_request env defn).outcome = _
  rw [create_project_request_created env defn obj hfind hcheck hcreate]

theorem C1_witness :
    (OKDRawModule.perform_action base0 envNotFound resProject defnProject).outcome =
      RunResult.ok { changed := true, result := obj0.to_dict,
                     method := some "create" } :=
  C1_provision_result base0 envNotFound resProject defnProject obj0 rfl
    (by decide) (Or.inl rfl) rfl rfl rfl

/-- C2: for state=present and a kind in {Project, ProjectRequest}, when the
live-object fetch raises `NotFoundError` or `ForbiddenError` (both signals
behave identically — the hypothesis admits either), the layer issues no
direct create of the original kind: its exact call sequence is the probe,
then a resolution of `ProjectRequest` for the same apiVersion, then a create
of the definition with its kind switched to `ProjectRequest`. -/
theorem C2_kind_switch (base : Resource → Definition → RunOutcome)
    (env : Env) (res : Resource) (defn : Definition)
    (hstate : env.state = some "present")
    (hkind : defn.kind ∈ ["Project", "ProjectRequest"])
    (hget : env.getResult = GetResult.notFoundError ∨
            env.getResult = GetResult.forbiddenError)
    (hfind : env.findResourceOk = true)
    (hcheck : env.check_mode = false) :
    (OKDRawModule.perform_action base env res defn).calls =
      [ApiCall.get res.kind res.apiVersion defn.metadata.name defn.metadata.nspace,
       ApiCall.findResource "ProjectRequest" defn.apiVersion,
       ApiCall.create "ProjectRequest" defn.apiVersion
         { defn with kind := "ProjectRequest" }] := by
  have hst : env.state ≠ some "absent" := by rw [hstate]; decide
  rw [perform_action_probe_failed base env res defn hkind hst hget]
  show ApiCall.get res.kind res.apiVersion defn.metadata.name defn.metadata.nspace ::
       (OKDRawModule.create_project_request env defn).calls = _
  rw [create_project_request_calls env defn hfind hcheck]

theorem C2_witness :
    (OKDRawModule.perform_action base0 envForbidden resProject defnProject).calls =
      [ApiCall.get resProject.kind resProject.apiVersion defnProject.metadata.name
         defnProject.metadata.nspace,
       ApiCall.findResource "ProjectRequest" defnProject.apiVersion,
       ApiCall.create "ProjectRequest" defnProject.apiVersion
         { defnProject with kind := "ProjectRequest" }] :=
  C2_kind_switch base0 envForbidden resProject defnProject rfl (by decide)
    (Or.inr rfl) rfl rfl

/-- C3: for state=present and a kind in the provisioning set, a live-object
fetch failing with a generic `DynamicApiError` (neither not-found nor
forbidden) terminates the run with a structured `fail_json` carrying `msg`
(from the error body), `error` and `status` (the transport status code) and
`reason`, and the call list shows the probe only — no provisioning create is
issued. -/
theorem C3_generic_error_fatal (base : Resource → Definition → RunOutcome)
    (env : Env) (res : Resource) (defn : Definition)
    (body : String) (status : Nat) (reason : String)
    (hstate : env.state = some "present")
    (hkind : defn.kind ∈ ["Project", "ProjectRequest"])
    (hget : env.getResult = GetResult.dynamicApiError body status reason) :
    OKDRawModule.perform_action base env res defn =
      { outcome := .failJson { msg := "Failed to retrieve requested object: " ++ body,
                               error := some (.num status),
                               status := some status,
                               reason := some reason },
        finalDefinition := defn,
        calls := [ApiCall.get res.kind res.apiVersion defn.metadata.name
                    defn.metadata.nspace] } := by
  have hst : env.state ≠ some "absent" := by rw [hstate]; decide
  simp only [OKDRawModule.perform_action]
  rw [if_pos ⟨hkind, hst⟩, hget]

theorem C3_witness :
    OKDRawModule.perform_action base0 envServerError resProject defnProject =
      { outcome := .failJson { msg := "Failed to retrieve requested object: " ++ "boom",
                               error := some (.num 500),
                               status := some 500,
                               reason := some "InternalError" },
        finalDefinition := defnProject,
        calls := [ApiCall.get resProject.kind resProject.apiVersion
                    defnProject.metadata.name defnProject.metadata.nspace] } :=
  C3_generic_error_fatal base0 envServerError resProject defnProject
    "boom" 500 "InternalError" rfl (by decide) rfl

/-- C4: with state=absent the provisioning path is never entered, regardless
of the definition's kind and of every collaborator outcome: the run is
exactly the base implementation's run — the OKD layer issues no probe and no
companion-kind create. -/
theorem C4_absent_no_provisioning (base : Resource → Definition → RunOutcome)
    (env : Env) (res : Resource) (defn : Definition)
    (h : env.state = some "absent") :
    OKDRawModule.perform_action base env res defn = base res defn :=
  perform_action_skip base env res defn (fun hc => hc.2 h)

theorem C4_witness :
    OKDRawModule.perform_action base0 envAbsent resProject defnProject =
      base0 resProject defnProject :=
  C4_absent_no_provisioning base0 envAbsent resProject defnProject rfl

/-- C5, counterexample: the caller-supplied definition is not read-only —
on the provisioning path `create_project_request` assigns
`definition['kind'] = 'ProjectRequest'` (k8s.py line 315), mutating the
caller's dict in place: after the run the definition differs from the one
passed in, its kind having changed from `Project` to `ProjectRequest`. -/
theorem C5_counterexample :
    (OKDRawModule.perform_action base0 envNotFound resProject defnProject).finalDefinition ≠
      defnProject ∧
    (OKDRawModule.perform_action base0 envNotFound resProject defnProject).finalDefinition.kind =
      "ProjectRequest" ∧
    defnProject.kind = "Project" := by decide

/-- C5, amended: the provisioning path mutates exactly the definition's
`kind` field, setting it to `ProjectRequest`; every other field
(`apiVersion`, `metadata`, remaining entries) is left unchanged for the
duration of the run. -/
theorem C5_kind_mutation (base : Resource → Definition → RunOutcome)
    (env : Env) (res : Resource) (defn : Definition)
    (hkind : defn.kind ∈ ["Project", "ProjectRequest"])
    (hstate : env.state ≠ some "absent")
    (hget : env.getResult = GetResult.notFoundError ∨
            env.getResult = GetResult.forbiddenError) :
    (OKDRawModule.perform_action base env res defn).finalDefinition =
      { defn with kind := "ProjectRequest" } ∧
    (OKDRawModule.perform_action base env res defn).finalDefinition.apiVersion =
      defn.apiVersion ∧
    (OKDRawModule.perform_action base env res defn).finalDefinition.metadata =
      defn.metadata ∧
    (OKDRawModule.perform_action base env res defn).finalDefinition.rest =
      defn.rest := by
  have h1 : (OKDRawModule.perform_action base env res defn).finalDefinition =
      { defn with kind := "ProjectRequest" } := by
    rw [perform_action_probe_failed base env res defn hkind hstate hget]
    exact create_project_request_finalDefinition env defn
  exact ⟨h1, by rw [h1], by rw [h1], by rw [h1]⟩

theorem C5_witness :
    (OKDRawModule.perform_action base0 envNotFound resProject defnProject).finalDefinition =
      { defnProject with kind := "ProjectRequest" } ∧
    (OKDRawModule.perform_action base0 envNotFound resProject defnProject).finalDefinition.apiVersion =
      defnProject.apiVersion ∧
    (OKDRawModule.perform_action base0 envNotFound resProject defnProject).finalDefinition.metadata =
      defnProject.metadata ∧
    (OKDRawModule.perform_action base0 envNotFound resProject defnProject).finalDefinition.rest =
      defnProject.rest :=
  C5_kind_mutation base0 envNotFound resProject defnProject (by decide)
    (by decide) (Or.inl rfl)

/-- C6: for state=present and a kind in the provisioning set, when the
live-object fetch succeeds the run is the base implementation's run with only
the probe call prepended: provisioning never runs and no request-kind create
is issued by this layer. -/
theorem C6_found_falls_through (base : Resource → Definition → RunOutcome)
    (env : Env) (res : Resource) (defn : Definition)
    (hkind : defn.kind ∈ ["Project", "ProjectRequest"])
    (hstate : env.state = some "present")
    (hget : env.getResult = GetResult.found) :
    OKDRawModule.perform_action base env res defn =
      { base res defn with
        calls := ApiCall.get res.kind res.apiVersion defn.metadata.name
                   defn.metadata.nspace :: (base res defn).calls } := by
  have hst : env.state ≠ some "absent" := by rw [hstate]; decide
  simp only [OKDRawModule.perform_action]
  rw [if_pos ⟨hkind, hst⟩, hget]

theorem C6_witness :
    OKDRawModule.perform_action base0 envFound resProject defnProject =
      { base0 resProject defnProject with
        calls := ApiCall.get resProject.kind resProject.apiVersion
                   defnProject.metadata.name defnProject.metadata.nspace ::
                 (base0 resProject defnProject).calls } :=
  C6_found_falls_through base0 envFound resProject defnProject (by decide) rfl rfl

/-- C7: the provisioning-kind set is the literal list
`['Project', 'ProjectRequest']` hard-coded in `perform_action` (k8s.py line
303): for every definition whose kind lies outside it, the run equals the
base implementation's run — and since the theorem quantifies over every
environment, no configuration can add or remove members of the set. -/
theorem C7_static_provisioning_set (base : Resource → Definition → RunOutcome)
    (env : Env) (res : Resource) (defn : Definition)
    (h : defn.kind ∉ ["Project", "ProjectRequest"]) :
    OKDRawModule.perform_action base env res defn = base res defn :=
  perform_action_skip base env res defn (fun hc => h hc.1)

theorem C7_witness :
    OKDRawModule.perform_action base0 envNotFound resProject defnService =
      base0 resProject defnService :=
  C7_static_provisioning_set base0 envNotFound resProject defnService (by decide)

/-- C8: a successful provisioning submission returns immediately with no
`duration` in the result, and the wait coordinator is never invoked on this
path — the theorem leaves `env.wait` unconstrained, so this holds even when
waiting was requested. -/
theorem C8_no_wait (base : Resource → Definition → RunOutcome)
    (env : Env) (res : Resource) (defn : Definition) (obj : K8sObject)
    (hstate : env.state = some "present")
    (hkind : defn.kind ∈ ["Project", "ProjectRequest"])
    (hget : env.getResult = GetResult.notFoundError ∨
            env.getResult = GetResult.forbiddenError)
    (hfind : env.findResourceOk = true)
    (hcheck : env.check_mode = false)
    (hcreate : env.createResult = CreateResult.created obj) :
    (OKDRawModule.perform_action base env res defn).outcome =
      RunResult.ok { changed := true, result := obj.to_dict,
                     method := some "create", duration := none } ∧
    ApiCall.wait ∉ (OKDRawModule.perform_action base env res defn).calls := by
  have hst : env.state ≠ some "absent" := by rw [hstate]; decide
  have hpa := perform_action_probe_failed base env res defn hkind hst hget
  constructor
  · rw [hpa]
    show (OKDRawModule.create_project_request env defn).outcome = _
    rw [create_project_request_created env defn obj hfind hcheck hcreate]
  · rw [hpa]
    show ApiCall.wait ∉ ApiCall.get res.kind res.apiVersion defn.metadata.name
           defn.metadata.nspace :: (OKDRawModule.create_project_request env defn).calls
    rw [create_project_request_calls env defn hfind hcheck]
    simp

theorem C8_witness :
    (OKDRawModule.perform_action base0 envNotFound resProject defnProject).outcome =
      RunResult.ok { changed := true, result := obj0.to_dict,
                     method := some "create", duration := none } ∧
    ApiCall.wait ∉ (OKDRawModule.perform_action base0 envNotFound resProject defnProject).calls :=
  C8_no_wait base0 envNotFound resProject defnProject obj0 rfl (by decide)
    (Or.inl rfl) rfl rfl rfl

/-- C9: when the required `community.kubernetes` collection is absent,
constructing the module terminates with a single structured `fail_json`
(`msg`, `exception` holding the formatted traceback, `error` holding the
rendered import exception) before `super().__init__()` — and hence before
any reconciliation action or cluster call — is reached. -/
theorem C9_missing_collection_fatal (err exc : String) :
    OKDRawModule.construct false err exc =
      InitResult.failJson
        { msg := "The community.kubernetes collection must be installed",
          exception := some err, error := some (.str exc) } := rfl

/-- C10: on the provisioning path, in check mode no create call is issued
(the call list is exactly the probe and the resource resolution) yet the
result still reports `changed=true` with an empty result object; outside
check mode the result object is the created live object converted to a
plain dictionary. -/
theorem C10_check_mode_result (base : Resource → Definition → RunOutcome)
    (env : Env) (res : Resource) (defn : Definition) (obj : K8sObject)
    (hstate : env.state = some "present")
    (hkind : defn.kind ∈ ["Project", "ProjectRequest"])
    (hget : env.getResult = GetResult.notFoundError ∨
            env.getResult = GetResult.forbiddenError)
    (hfind : env.findResourceOk = true)
    (hobj : env.check_mode = false → env.createResult = CreateResult.created obj) :
    (env.check_mode = true →
      (OKDRawModule.perform_action base env res defn).outcome =
        RunResult.ok { changed := true, result := [], method := some "create" } ∧
      (OKDRawModule.perform_action base env res defn).calls =
        [ApiCall.get res.kind res.apiVersion defn.metadata.name defn.metadata.nspace,
         ApiCall.findResource "ProjectRequest" defn.apiVersion]) ∧
    (env.check_mode = false →
      (OKDRawModule.perform_action base env res defn).outcome =
        RunResult.ok { changed := true, result := obj.to_dict,
                       method := some "create" }) := by
  have hst : env.state ≠ some "absent" := by rw [hstate]; decide
  have hpa := perform_action_probe_failed base env res defn hkind hst hget
  constructor
  · intro hcm
    constructor
    · rw [hpa]
      show (OKDRawModule.create_project_request env defn).outcome = _
      rw [create_project_request_check env defn hfind hcm]
    · rw [hpa]
      show ApiCall.get res.kind res.apiVersion defn.metadata.name defn.metadata.nspace ::
           (OKDRawModule.create_project_request env defn).calls = _
      rw [create_project_request_check env defn hfind hcm]
  · intro hcm
    rw [hpa]
    show (OKDRawModule.create_project_request env defn).outcome = _
    rw [create_project_request_created env defn obj hfind hcm (hobj hcm)]

theorem C10_witness :
    (envCheck.check_mode = true →
      (OKDRawModule.perform_action base0 envCheck resProject defnProject).outcome =
        RunResult.ok { changed := true, result := [], method := some "create" } ∧
      (OKDRawModule.perform_action base0 envCheck resProject defnProject).calls =
        [ApiCall.get resProject.kind resProject.apiVersion defnProject.metadata.name
           defnProject.metadata.nspace,
         ApiCall.findResource "ProjectRequest" defnProject.apiVersion]) ∧
    (envCheck.check_mode = false →
      (OKDRawModule.perform_action base0 envCheck resProject defnProject).outcome =
        RunResult.ok { changed := true, result := obj0.to_dict,
                       method := some "create" }) :=
  C10_check_mode_result base0 envCheck resProject defnProject obj0 rfl (by decide)
    (Or.inl rfl) rfl (fun h => absurd h (by decide))
